import Mathlib

/-!
Verification of the resolution core of `gen-systemd-svcs` (`src/main.rs`).

The Rust program decodes a YAML definition file into a `DefinitionFile`
(template groups plus instances) and, for each instance, computes a
systemd service descriptor string with `resolve`.  Below, the data model
and the string-building functions are embedded as Lean definitions that
mirror the Rust source; machine strings are Lean `String`, `Option` models
Rust's `Option`, and the serde-derived decoding defaults are modelled from
the `#[serde(default = ...)]` / `#[serde(rename_all = ...)]` attributes
declared in the source.
-/

set_option linter.unusedVariables false
set_option maxRecDepth 8192

namespace GenSvc

/-- The `Restart` enum of the source (variants No, Always, OnSuccess,
OnFailure, OnWatchdog, OnAbort). -/
inductive Restart
  | no
  | always
  | onSuccess
  | onFailure
  | onWatchdog
  | onAbort
deriving DecidableEq, Repr

/-- `impl Display for Restart` from the source: the exact strings written
by `write_str`. -/
def Restart.fmt : Restart → String
  | .no => "no"
  | .always => "always"
  | .onSuccess => "on-success"
  | .onFailure => "on-failure"
  | .onWatchdog => "on-watchdog"
  | .onAbort => "on-abort"

/-- Decoding of a `Restart` scalar, per the source's
`#[serde(rename_all = "kebab-case")]` attribute on `Restart`: each variant
name in kebab-case decodes to that variant, anything else is a decode
error (modelled as `none`). -/
def Restart.fromString (s : String) : Option Restart :=
  if s = "no" then some .no
  else if s = "always" then some .always
  else if s = "on-success" then some .onSuccess
  else if s = "on-failure" then some .onFailure
  else if s = "on-watchdog" then some .onWatchdog
  else if s = "on-abort" then some .onAbort
  else none

/-- The `RemainAfterExit` enum of the source (variants No, Yes). -/
inductive RemainAfterExit
  | no
  | yes
deriving DecidableEq, Repr

/-- `impl Display for RemainAfterExit` from the source. -/
def RemainAfterExit.fmt : RemainAfterExit → String
  | .no => "no"
  | .yes => "yes"

/-- Decoding of a `RemainAfterExit` scalar, per the source's
`#[serde(rename_all = "lowercase")]` attribute. -/
def RemainAfterExit.fromString (s : String) : Option RemainAfterExit :=
  if s = "no" then some .no
  else if s = "yes" then some .yes
  else none

/-- The `ServiceType` enum of the source (variants Simple, OneShot,
Forking, Notify, DBus, Idle). -/
inductive ServiceType
  | simple
  | oneShot
  | forking
  | notify
  | dbus
  | idle
deriving DecidableEq, Repr

/-- The serde serialization of a `ServiceType` variant, per the source's
`#[serde(rename_all = "lowercase")]` attribute: the variant name in
lowercase. -/
def ServiceType.serdeName : ServiceType → String
  | .simple => "simple"
  | .oneShot => "oneshot"
  | .forking => "forking"
  | .notify => "notify"
  | .dbus => "dbus"
  | .idle => "idle"

/-- Decoding of a `ServiceType` scalar, per `rename_all = "lowercase"`. -/
def ServiceType.fromString (s : String) : Option ServiceType :=
  if s = "simple" then some .simple
  else if s = "oneshot" then some .oneShot
  else if s = "forking" then some .forking
  else if s = "notify" then some .notify
  else if s = "dbus" then some .dbus
  else if s = "idle" then some .idle
  else none

/-- A minimal model of a `serde_yaml::Value`: serializing a unit enum
variant yields a string value; every other shape is collapsed into
`other`, on which `as_str` fails. -/
inductive YamlValue
  | str : String → YamlValue
  | other
deriving DecidableEq, Repr

/-- `self.serialize(serde_yaml::value::Serializer)` for a `ServiceType`:
a unit variant serializes to the YAML string of its renamed name. -/
def ServiceType.serializeYaml (t : ServiceType) : YamlValue :=
  .str t.serdeName

/-- `serde_yaml::Value::as_str`: succeeds exactly on string values. -/
def YamlValue.asStr : YamlValue → Option String
  | .str s => some s
  | .other => none

/-- `impl Display for ServiceType` from the source, modelling the two
`unwrap()` calls (`serialize(...).unwrap().as_str().unwrap()`) as an
`Option` result. -/
def ServiceType.fmtChecked (t : ServiceType) : Option String :=
  t.serializeYaml.asStr

/-- The total string produced by `impl Display for ServiceType` (the
value the `unwrap()`s extract). -/
def ServiceType.fmt (t : ServiceType) : String :=
  t.serdeName

/-- `TemplateUnit` struct from the source. -/
structure TemplateUnit where
  requires : List String
  after : List String
  wants : List String
deriving DecidableEq, Repr

/-- `InstanceUnit` struct from the source. -/
structure InstanceUnit where
  name : String
  description : String
  requires : Option (List String)
  after : Option (List String)
  wants : Option (List String)
  inherit_requires : Bool
  inherit_after : Bool
  inherit_wants : Bool
  requires_mounts_for : Option (List String)
deriving DecidableEq, Repr

/-- `Service` struct from the source: the eleven optional service
attributes.  `timeout_start_sec` is a Rust `u32`, embedded as `Nat`
(no arithmetic is ever performed on it). -/
structure Service where
  environment_file : Option String
  exec_start_pre : Option String
  exec_start : Option String
  exec_stop : Option String
  group : Option String
  remain_after_exit : Option RemainAfterExit
  restart : Option Restart
  timeout_start_sec : Option Nat
  service_type : Option ServiceType
  user : Option String
  working_directory : Option String
deriving DecidableEq, Repr

/-- `Install` struct from the source. -/
structure Install where
  wanted_by : String
deriving DecidableEq, Repr

/-- `default_template_deps` from the source. -/
def default_template_deps : List String := []

/-- `default_inherit_requires` from the source. -/
def default_inherit_requires : Bool := true

/-- `default_inherit_after` from the source. -/
def default_inherit_after : Bool := true

/-- `default_inherit_wants` from the source. -/
def default_inherit_wants : Bool := true

/-- `default_remain_after_exit` from the source. -/
def default_remain_after_exit : Option RemainAfterExit :=
  some RemainAfterExit.no

/-- `default_service_type` from the source. -/
def default_service_type : Option ServiceType := none

/-- `default_wanted_by` from the source. -/
def default_wanted_by : String := "default.target"

/-- `default_install` from the source. -/
def default_install : Install :=
  { wanted_by := default_wanted_by }

/-- `TemplateServiceDef` struct from the source. -/
structure TemplateServiceDef where
  unit : TemplateUnit
  service : Service
  install : Install
deriving DecidableEq, Repr

/-- `InstanceServiceDef` struct from the source. -/
structure InstanceServiceDef where
  unit : InstanceUnit
  service : Option Service
  install : Option Install
deriving DecidableEq, Repr

/-- `TemplatesAndInstances` struct from the source. -/
structure TemplatesAndInstances where
  template : TemplateServiceDef
  instances : List InstanceServiceDef
deriving DecidableEq, Repr

/-- `DefinitionFile` struct from the source. -/
structure DefinitionFile where
  defs : List TemplatesAndInstances
deriving DecidableEq, Repr

/-- The raw (pre-default) shape of a `Service` block in the input
document: each field is either absent (`none`) or present with an
already-validated value.  Only `remain_after_exit` and `service_type`
carry a `#[serde(default = ...)]` attribute in the source; for every
other field an absent entry simply decodes to Rust's `None`. -/
structure RawService where
  environment_file : Option String
  exec_start_pre : Option String
  exec_start : Option String
  exec_stop : Option String
  group : Option String
  remain_after_exit : Option RemainAfterExit
  restart : Option Restart
  timeout_start_sec : Option Nat
  service_type : Option ServiceType
  user : Option String
  working_directory : Option String
deriving DecidableEq, Repr

/-- Serde decoding of a `Service` block, per the field attributes in the
source: an absent `remain_after_exit` is filled with
`default_remain_after_exit` (= `Some(RemainAfterExit::No)`), an absent
`service_type` with `default_service_type` (= `None`); every other absent
field decodes to `None`. -/
def decodeService (r : RawService) : Service where
  environment_file := r.environment_file
  exec_start_pre := r.exec_start_pre
  exec_start := r.exec_start
  exec_stop := r.exec_stop
  group := r.group
  remain_after_exit :=
    match r.remain_after_exit with
    | some v => some v
    | none => default_remain_after_exit
  restart := r.restart
  timeout_start_sec := r.timeout_start_sec
  service_type :=
    match r.service_type with
    | some v => some v
    | none => default_service_type
  user := r.user
  working_directory := r.working_directory

/-- The per-field override step of `resolve_service_section`: the Rust
`if i.field.is_some() { field = i.field; }` pattern, applied to a
template value `tmpl` and an instance value `inst`. -/
def pick {α : Type} (tmpl inst : Option α) : Option α :=
  if inst.isSome then inst else tmpl

/-- The eleven `let mut` variables of `resolve_service_section` after the
optional instance-override block has run: every field starts as the
template's value and is replaced by the instance's value exactly when the
instance service block is present and that field is `Some` in it. -/
def resolveServiceFields : Option Service → Service → Service
  | none, t => t
  | some i, t =>
    { environment_file := pick t.environment_file i.environment_file
      exec_start_pre := pick t.exec_start_pre i.exec_start_pre
      exec_start := pick t.exec_start i.exec_start
      exec_stop := pick t.exec_stop i.exec_stop
      group := pick t.group i.group
      remain_after_exit := pick t.remain_after_exit i.remain_after_exit
      restart := pick t.restart i.restart
      timeout_start_sec := pick t.timeout_start_sec i.timeout_start_sec
      service_type := pick t.service_type i.service_type
      user := pick t.user i.user
      working_directory := pick t.working_directory i.working_directory }

/-- The Rust emission pattern `if let Some(v) = x { memo += &format!("Key={}\n", v) }`:
the text contributed for one optional attribute (`key` carries the
trailing `=`). -/
def optLine {α : Type} (key : String) (f : α → String) : Option α → String
  | some v => key ++ f v ++ "\n"
  | none => ""

/-- `resolve_service_section` from the source: resolves the eleven
service attributes and appends the `[Service]` section to `memo`. -/
def resolve_service_section (instance_service : Option Service)
    (template_service : Service) (memo : String) : String :=
  let r := resolveServiceFields instance_service template_service
  let memo := memo ++ "\n[Service]\n"
  let memo := memo ++ optLine "EnvironmentFile=" id r.environment_file
  let memo := memo ++ optLine "ExecStartPre=" id r.exec_start_pre
  let memo := memo ++ optLine "ExecStart=" id r.exec_start
  let memo := memo ++ optLine "ExecStop=" id r.exec_stop
  let memo := memo ++ optLine "Group=" id r.group
  let memo := memo ++ optLine "RemainAfterExit=" RemainAfterExit.fmt r.remain_after_exit
  let memo := memo ++ optLine "Restart=" Restart.fmt r.restart
  let memo := memo ++ optLine "TimeoutStartSec=" toString r.timeout_start_sec
  let memo := memo ++ optLine "Type=" ServiceType.fmt r.service_type
  let memo := memo ++ optLine "User=" id r.user
  let memo := memo ++ optLine "WorkingDirectory=" id r.working_directory
  memo

/-- `resolve` from the source: builds the full descriptor string for one
instance against its group's template. -/
def resolve (inst : InstanceServiceDef) (template : TemplateServiceDef) : String :=
  let memo := "; THIS FILE IS GENERATED BY gen-systemd-svc\n"
  let memo := memo ++ "; DO NOT EDIT THIS FILE DIRECTLY!\n"
  let memo := memo ++ "\n[Unit]\n"
  let memo := memo ++ ("Description=" ++ inst.unit.description ++ "\n")
  let requires : List String :=
    match inst.unit.inherit_requires with
    | true => template.unit.requires ++ inst.unit.requires.getD []
    | false => inst.unit.requires.getD []
  let memo := requires.foldl (fun m req => m ++ ("Requires=" ++ req ++ "\n")) memo
  let afters : List String :=
    match inst.unit.inherit_after with
    | true => template.unit.after ++ inst.unit.after.getD []
    | false => inst.unit.after.getD []
  let memo := afters.foldl (fun m a => m ++ ("After=" ++ a ++ "\n")) memo
  let wants : List String :=
    match inst.unit.inherit_wants with
    | true => template.unit.wants ++ inst.unit.wants.getD []
    | false => inst.unit.wants.getD []
  let memo := wants.foldl (fun m w => m ++ ("Wants=" ++ w ++ "\n")) memo
  let memo :=
    match inst.unit.requires_mounts_for with
    | some v => memo ++ ("RequiresMountsFor=" ++ String.intercalate " " v ++ "\n")
    | none => memo
  let memo := resolve_service_section inst.service template.service memo
  let memo := memo ++ "\n[Install]\n"
  let memo := memo ++ ("WantedBy=" ++ (inst.install.getD template.install).wanted_by ++ "\n")
  memo

/-- The output file name computed in `main`:
`format!("{}.service", name)`, with the instance's name used verbatim. -/
def outputFileName (inst : InstanceServiceDef) : String :=
  inst.unit.name ++ ".service"

/-- The pure content of `main`'s nested loop over the decoded definition
file: one `(file name, descriptor text)` pair per instance, in
declaration order.  (The surrounding argument parsing and file writing
are I/O plumbing.) -/
def processDefFile (d : DefinitionFile) : List (String × String) :=
  d.defs.flatMap (fun g => g.instances.map (fun i => (outputFileName i, resolve i g.template)))

/-- `key.data.isPrefixOf l.data`: whether the output line `l` starts with
`key` (keys carry their trailing `=`). -/
def lineHasKey (key l : String) : Bool :=
  key.data.isPrefixOf l.data

/-- Line view of `optLine`: the (zero or one) lines contributed by one
optional service attribute. -/
def optLines {α : Type} (key : String) (f : α → String) : Option α → List String
  | some v => [key ++ f v]
  | none => []

/-- Line view of a dependency loop of `resolve`: one `key`-prefixed line
per entry, in entry order. -/
def depLines (key : String) (entries : List String) : List String :=
  entries.map (fun e => key ++ e)

/-- The merged dependency list computed inside `resolve` for one of
`requires` / `after` / `wants`. -/
def mergedDeps (inherit : Bool) (tmpl : List String) (inst : Option (List String)) : List String :=
  match inherit with
  | true => tmpl ++ inst.getD []
  | false => inst.getD []

/-- The body lines of the `[Unit]` section built by `resolve` (everything
after the `[Unit]` header line). -/
def unitBodyLines (inst : InstanceServiceDef) (template : TemplateServiceDef) : List String :=
  ["Description=" ++ inst.unit.description]
    ++ depLines "Requires=" (mergedDeps inst.unit.inherit_requires template.unit.requires inst.unit.requires)
    ++ depLines "After=" (mergedDeps inst.unit.inherit_after template.unit.after inst.unit.after)
    ++ depLines "Wants=" (mergedDeps inst.unit.inherit_wants template.unit.wants inst.unit.wants)
    ++ (match inst.unit.requires_mounts_for with
        | some v => ["RequiresMountsFor=" ++ String.intercalate " " v]
        | none => [])

/-- Line view of the `[Unit]` section built by `resolve` (including the
blank separator line that `"\n[Unit]\n"` starts with). -/
def unitLines (inst : InstanceServiceDef) (template : TemplateServiceDef) : List String :=
  ["", "[Unit]"] ++ unitBodyLines inst template

/-- The body lines of the `[Service]` section emitted by
`resolve_service_section` for already-resolved fields `r`. -/
def serviceBodyLines (r : Service) : List String :=
  optLines "EnvironmentFile=" id r.environment_file
    ++ optLines "ExecStartPre=" id r.exec_start_pre
    ++ optLines "ExecStart=" id r.exec_start
    ++ optLines "ExecStop=" id r.exec_stop
    ++ optLines "Group=" id r.group
    ++ optLines "RemainAfterExit=" RemainAfterExit.fmt r.remain_after_exit
    ++ optLines "Restart=" Restart.fmt r.restart
    ++ optLines "TimeoutStartSec=" toString r.timeout_start_sec
    ++ optLines "Type=" ServiceType.fmt r.service_type
    ++ optLines "User=" id r.user
    ++ optLines "WorkingDirectory=" id r.working_directory

/-- Line view of the `[Service]` section emitted by
`resolve_service_section` for already-resolved fields `r`. -/
def serviceLines (r : Service) : List String :=
  ["", "[Service]"] ++ serviceBodyLines r

/-- Line view of the `[Install]` section built by `resolve`. -/
def installLines (inst : InstanceServiceDef) (template : TemplateServiceDef) : List String :=
  ["", "[Install]", "WantedBy=" ++ (inst.install.getD template.install).wanted_by]

/-- The full output of `resolve`, as the list of lines it emits (each
element is one `memo += "...\n"`-terminated piece, without its trailing
newline). -/
def resolveLines (inst : InstanceServiceDef) (template : TemplateServiceDef) : List String :=
  ["; THIS FILE IS GENERATED BY gen-systemd-svc", "; DO NOT EDIT THIS FILE DIRECTLY!"]
    ++ unitLines inst template
    ++ serviceLines (resolveServiceFields inst.service template.service)
    ++ installLines inst template

/-- The header and `[Unit]` part of `resolve` (everything before the
`resolve_service_section` call), factored out for the checked variant. -/
def unitPart (inst : InstanceServiceDef) (template : TemplateServiceDef) : String :=
  let memo := "; THIS FILE IS GENERATED BY gen-systemd-svc\n"
  let memo := memo ++ "; DO NOT EDIT THIS FILE DIRECTLY!\n"
  let memo := memo ++ "\n[Unit]\n"
  let memo := memo ++ ("Description=" ++ inst.unit.description ++ "\n")
  let requires : List String :=
    match inst.unit.inherit_requires with
    | true => template.unit.requires ++ inst.unit.requires.getD []
    | false => inst.unit.requires.getD []
  let memo := requires.foldl (fun m req => m ++ ("Requires=" ++ req ++ "\n")) memo
  let afters : List String :=
    match inst.unit.inherit_after with
    | true => template.unit.after ++ inst.unit.after.getD []
    | false => inst.unit.after.getD []
  let memo := afters.foldl (fun m a => m ++ ("After=" ++ a ++ "\n")) memo
  let wants : List String :=
    match inst.unit.inherit_wants with
    | true => template.unit.wants ++ inst.unit.wants.getD []
    | false => inst.unit.wants.getD []
  let memo := wants.foldl (fun m w => m ++ ("Wants=" ++ w ++ "\n")) memo
  match inst.unit.requires_mounts_for with
  | some v => memo ++ ("RequiresMountsFor=" ++ String.intercalate " " v ++ "\n")
  | none => memo

/-- `optLine` with a display function that may fail (models the
`unwrap()`s inside `Display for ServiceType`). -/
def optLineChecked {α : Type} (key : String) (f : α → Option String) :
    Option α → Option String
  | some v => (f v).map (fun s => key ++ s ++ "\n")
  | none => some ""

/-- `resolve_service_section` with the `ServiceType` display modelled as
fallible: returns `none` exactly when the `Type=` line's
`serialize(...).unwrap().as_str().unwrap()` chain would panic. -/
def resolve_service_section_checked (instance_service : Option Service)
    (template_service : Service) (memo : String) : Option String :=
  let r := resolveServiceFields instance_service template_service
  (optLineChecked "Type=" ServiceType.fmtChecked r.service_type).map (fun typeLine =>
    memo ++ "\n[Service]\n"
      ++ optLine "EnvironmentFile=" id r.environment_file
      ++ optLine "ExecStartPre=" id r.exec_start_pre
      ++ optLine "ExecStart=" id r.exec_start
      ++ optLine "ExecStop=" id r.exec_stop
      ++ optLine "Group=" id r.group
      ++ optLine "RemainAfterExit=" RemainAfterExit.fmt r.remain_after_exit
      ++ optLine "Restart=" Restart.fmt r.restart
      ++ optLine "TimeoutStartSec=" toString r.timeout_start_sec
      ++ typeLine
      ++ optLine "User=" id r.user
      ++ optLine "WorkingDirectory=" id r.working_directory)

/-- `resolve` with every potentially-panicking operation of the resolver
path modelled as fallible (the only such operations are the `unwrap()`s
inside `Display for ServiceType`; `write_str` on an in-memory `String`
formatter and `format!` cannot fail). -/
def resolveChecked (inst : InstanceServiceDef) (template : TemplateServiceDef) :
    Option String :=
  (resolve_service_section_checked inst.service template.service (unitPart inst template)).map
    (fun m => m ++ "\n[Install]\n"
      ++ ("WantedBy=" ++ (inst.install.getD template.install).wanted_by ++ "\n"))

/-- A `Service` value with every attribute absent. -/
def emptyService : Service :=
  { environment_file := none, exec_start_pre := none, exec_start := none
    exec_stop := none, group := none, remain_after_exit := none
    restart := none, timeout_start_sec := none, service_type := none
    user := none, working_directory := none }

/-- A `RawService` input block with every attribute absent. -/
def emptyRawService : RawService :=
  { environment_file := none, exec_start_pre := none, exec_start := none
    exec_stop := none, group := none, remain_after_exit := none
    restart := none, timeout_start_sec := none, service_type := none
    user := none, working_directory := none }

/-- A concrete template fixture: requires `net.target`, after
`base.service`, `ExecStart=/bin/true`, `RemainAfterExit=yes`, default
install target. -/
def tmpl0 : TemplateServiceDef :=
  { unit := { requires := ["net.target"], after := ["base.service"], wants := [] }
    service := { emptyService with
                   exec_start := some "/bin/true"
                   remain_after_exit := some RemainAfterExit.yes }
    install := default_install }

/-- A concrete instance fixture named `foo` with an extra `After` entry
and all inherit flags at their default `true`. -/
def inst0 : InstanceServiceDef :=
  { unit := { name := "foo", description := "Foo service", requires := none
              after := some ["other.service"], wants := none
              inherit_requires := true, inherit_after := true
              inherit_wants := true, requires_mounts_for := none }
    service := none
    install := none }

/-- An instance fixture whose name contains a path separator. -/
def badNameInst : InstanceServiceDef :=
  { unit := { name := "a/b", description := "Bad name", requires := none
              after := none, wants := none
              inherit_requires := true, inherit_after := true
              inherit_wants := true, requires_mounts_for := none }
    service := none
    install := none }

/-- A definition file containing the separator-named instance. -/
def badNameDefFile : DefinitionFile :=
  { defs := [{ template := tmpl0, instances := [badNameInst] }] }

/-- A template fixture whose service block is the decode of an input
block with every field absent (so `remain_after_exit` carries the filled
default and `service_type` is unset). -/
def tmplDecoded0 : TemplateServiceDef :=
  { unit := { requires := ["net.target"], after := ["base.service"], wants := [] }
    service := decodeService emptyRawService
    install := default_install }

theorem join_nil : String.join [] = "" := rfl

theorem foldl_append_init (l : List String) :
    ∀ a : String, l.foldl (· ++ ·) a = a ++ String.join l := by
  induction l with
  | nil => intro a; simp [String.join, String.append_empty]
  | cons x xs ih =>
      intro a
      show xs.foldl (· ++ ·) (a ++ x) = a ++ String.join (x :: xs)
      rw [ih]
      have h2 : String.join (x :: xs) = x ++ String.join xs := by
        show xs.foldl (· ++ ·) ("" ++ x) = x ++ String.join xs
        rw [String.empty_append, ih]
      rw [h2, String.append_assoc]

theorem join_cons (a : String) (l : List String) :
    String.join (a :: l) = a ++ String.join l := by
  show (a :: l).foldl (· ++ ·) "" = a ++ String.join l
  rw [List.foldl_cons, String.empty_append, foldl_append_init]

theorem join_append (a b : List String) :
    String.join (a ++ b) = String.join a ++ String.join b := by
  induction a with
  | nil => rw [List.nil_append, join_nil, String.empty_append]
  | cons x xs ih => rw [List.cons_append, join_cons, join_cons, ih, String.append_assoc]

theorem foldl_strcat {α : Type} (f : α → String) (l : List α) :
    ∀ init : String, l.foldl (fun m x => m ++ f x) init = init ++ String.join (l.map f) := by
  induction l with
  | nil => intro init; simp [String.join, String.append_empty]
  | cons x xs ih =>
      intro init
      show xs.foldl (fun m x => m ++ f x) (init ++ f x)
          = init ++ String.join (f x :: xs.map f)
      rw [ih, join_cons, String.append_assoc]

theorem lineHasKey_key_append (key v : String) :
    lineHasKey key (key ++ v) = true := by
  simp [lineHasKey, String.data_append, List.isPrefixOf_iff_prefix]

theorem lineHasKey_false_append (key pre v : String)
    (h : lineHasKey key pre = false)
    (hlen : key.data.length ≤ pre.data.length) :
    lineHasKey key (pre ++ v) = false := by
  unfold lineHasKey at h ⊢
  rw [String.data_append]
  by_contra hc
  rw [Bool.not_eq_false, List.isPrefixOf_iff_prefix] at hc
  have hp : pre.data <+: pre.data ++ v.data := List.prefix_append _ _
  have hk : key.data <+: pre.data := List.prefix_of_prefix_length_le hc hp hlen
  rw [← List.isPrefixOf_iff_prefix] at hk
  rw [hk] at h
  simp at h

theorem unit_header_append (x : String) :
    "\n[Unit]\n" ++ x = "\n" ++ ("[Unit]\n" ++ x) := by
  rw [← String.append_assoc]
  have h : ("\n" ++ "[Unit]\n" : String) = "\n[Unit]\n" := by decide
  rw [h]

theorem unit_prefix_append (x : String) :
    "; THIS FILE IS GENERATED BY gen-systemd-svc\n; DO NOT EDIT THIS FILE DIRECTLY!\n\n[Unit]\n" ++ x
      = "; THIS FILE IS GENERATED BY gen-systemd-svc\n"
        ++ ("; DO NOT EDIT THIS FILE DIRECTLY!\n" ++ ("\n" ++ ("[Unit]\n" ++ x))) := by
  rw [← String.append_assoc, ← String.append_assoc, ← String.append_assoc]
  congr 1

theorem service_header_append (x : String) :
    "\n[Service]\n" ++ x = "\n" ++ ("[Service]\n" ++ x) := by
  rw [← String.append_assoc]
  have h : ("\n" ++ "[Service]\n" : String) = "\n[Service]\n" := by decide
  rw [h]

theorem install_header_append (x : String) :
    "\n[Install]\n" ++ x = "\n" ++ ("[Install]\n" ++ x) := by
  rw [← String.append_assoc]
  have h : ("\n" ++ "[Install]\n" : String) = "\n[Install]\n" := by decide
  rw [h]

theorem join_optLines {α : Type} (key : String) (f : α → String) (x : Option α) :
    String.join ((optLines key f x).map (fun l => l ++ "\n")) = optLine key f x := by
  cases x <;>
    simp [optLines, optLine, join_cons, join_nil, String.append_empty, String.append_assoc]

theorem resolve_structure (i : InstanceServiceDef) (t : TemplateServiceDef) :
    resolve i t =
      resolve_service_section i.service t.service (unitPart i t)
        ++ "\n[Install]\n"
        ++ ("WantedBy=" ++ (i.install.getD t.install).wanted_by ++ "\n") := rfl

theorem resolve_service_section_eq_join (is : Option Service) (ts : Service) (memo : String) :
    resolve_service_section is ts memo
      = memo ++ String.join ((serviceLines (resolveServiceFields is ts)).map (fun l => l ++ "\n")) := by
  unfold resolve_service_section serviceLines serviceBodyLines
  simp [List.map_append, join_append, join_cons, join_nil, join_optLines,
    service_header_append, String.append_assoc, String.append_empty, String.empty_append]

theorem unitPart_eq_join (i : InstanceServiceDef) (t : TemplateServiceDef) :
    unitPart i t
      = String.join (((["; THIS FILE IS GENERATED BY gen-systemd-svc",
            "; DO NOT EDIT THIS FILE DIRECTLY!"] ++ unitLines i t)).map (fun l => l ++ "\n")) := by
  simp only [unitPart, unitLines, unitBodyLines, mergedDeps, depLines]
  rw [foldl_strcat, foldl_strcat, foldl_strcat]
  cases i.unit.requires_mounts_for <;>
    simp [List.map_append, List.map_map, Function.comp_def, join_append, join_cons, join_nil,
      unit_prefix_append, unit_header_append,
      String.append_assoc, String.append_empty, String.empty_append]

theorem resolve_eq_join (i : InstanceServiceDef) (t : TemplateServiceDef) :
    resolve i t = String.join ((resolveLines i t).map (fun l => l ++ "\n")) := by
  rw [resolve_structure, resolve_service_section_eq_join, unitPart_eq_join]
  unfold resolveLines installLines
  simp [List.map_append, join_append, join_cons, join_nil,
    install_header_append, String.append_assoc, String.append_empty, String.empty_append]

theorem lineHasKey_false_append2 (key pre v : String)
    (h1 : key.data.isPrefixOf pre.data = false)
    (h2 : pre.data.isPrefixOf key.data = false) :
    lineHasKey key (pre ++ v) = false := by
  unfold lineHasKey
  rw [String.data_append]
  by_contra hc
  rw [Bool.not_eq_false, List.isPrefixOf_iff_prefix] at hc
  have hp : pre.data <+: pre.data ++ v.data := List.prefix_append _ _
  rcases Nat.le_total key.data.length pre.data.length with hle | hle
  · have hk : key.data <+: pre.data := List.prefix_of_prefix_length_le hc hp hle
    rw [← List.isPrefixOf_iff_prefix] at hk
    rw [hk] at h1
    simp at h1
  · have hk : pre.data <+: key.data := List.prefix_of_prefix_length_le hp hc hle
    rw [← List.isPrefixOf_iff_prefix] at hk
    rw [hk] at h2
    simp at h2

theorem filter_optLines_false {α : Type} (p : String → Bool) (key : String)
    (f : α → String) (x : Option α) (h : ∀ v, p (key ++ f v) = false) :
    (optLines key f x).filter p = [] := by
  cases x <;> simp [optLines, List.filter_cons, h]

theorem filter_depLines_self (p : String → Bool) (key : String) (es : List String)
    (h : ∀ e, p (key ++ e) = true) :
    (depLines key es).filter p = depLines key es := by
  induction es with
  | nil => rfl
  | cons e es ih =>
      simp only [depLines, List.map_cons] at ih ⊢
      simp [List.filter_cons, h, ih]

theorem filter_depLines_none (p : String → Bool) (key : String) (es : List String)
    (h : ∀ e, p (key ++ e) = false) :
    (depLines key es).filter p = [] := by
  induction es with
  | nil => rfl
  | cons e es ih =>
      simp only [depLines, List.map_cons] at ih ⊢
      simp [List.filter_cons, h, ih]

theorem filter_resolveLines (i : InstanceServiceDef) (t : TemplateServiceDef)
    (p : String → Bool)
    (h1 : p "; THIS FILE IS GENERATED BY gen-systemd-svc" = false)
    (h2 : p "; DO NOT EDIT THIS FILE DIRECTLY!" = false)
    (h3 : p "" = false)
    (h4 : p "[Unit]" = false)
    (h5 : p "[Service]" = false)
    (h6 : p "[Install]" = false)
    (hdesc : ∀ s, p ("Description=" ++ s) = false)
    (hmounts : ∀ s, p ("RequiresMountsFor=" ++ s) = false)
    (hwb : ∀ s, p ("WantedBy=" ++ s) = false) :
    (resolveLines i t).filter p
      = (depLines "Requires=" (mergedDeps i.unit.inherit_requires t.unit.requires i.unit.requires)).filter p
        ++ (depLines "After=" (mergedDeps i.unit.inherit_after t.unit.after i.unit.after)).filter p
        ++ (depLines "Wants=" (mergedDeps i.unit.inherit_wants t.unit.wants i.unit.wants)).filter p
        ++ (serviceBodyLines (resolveServiceFields i.service t.service)).filter p := by
  unfold resolveLines unitLines unitBodyLines serviceLines installLines
  cases hm : i.unit.requires_mounts_for <;>
    simp [List.filter_append, List.filter_cons, h1, h2, h3, h4, h5, h6, hdesc, hmounts, hwb,
      List.append_assoc]

theorem filter_serviceBodyLines_false (p : String → Bool) (r : Service)
    (henv : ∀ s, p ("EnvironmentFile=" ++ s) = false)
    (hesp : ∀ s, p ("ExecStartPre=" ++ s) = false)
    (hes : ∀ s, p ("ExecStart=" ++ s) = false)
    (hestop : ∀ s, p ("ExecStop=" ++ s) = false)
    (hgrp : ∀ s, p ("Group=" ++ s) = false)
    (hrae : ∀ s, p ("RemainAfterExit=" ++ s) = false)
    (hres : ∀ s, p ("Restart=" ++ s) = false)
    (htss : ∀ s, p ("TimeoutStartSec=" ++ s) = false)
    (htype : ∀ s, p ("Type=" ++ s) = false)
    (husr : ∀ s, p ("User=" ++ s) = false)
    (hwd : ∀ s, p ("WorkingDirectory=" ++ s) = false) :
    (serviceBodyLines r).filter p = [] := by
  unfold serviceBodyLines
  rw [List.filter_append, List.filter_append, List.filter_append, List.filter_append,
    List.filter_append, List.filter_append, List.filter_append, List.filter_append,
    List.filter_append, List.filter_append]
  rw [filter_optLines_false p "EnvironmentFile=" id r.environment_file (fun v => henv v),
    filter_optLines_false p "ExecStartPre=" id r.exec_start_pre (fun v => hesp v),
    filter_optLines_false p "ExecStart=" id r.exec_start (fun v => hes v),
    filter_optLines_false p "ExecStop=" id r.exec_stop (fun v => hestop v),
    filter_optLines_false p "Group=" id r.group (fun v => hgrp v),
    filter_optLines_false p "RemainAfterExit=" RemainAfterExit.fmt r.remain_after_exit
      (fun v => hrae (RemainAfterExit.fmt v)),
    filter_optLines_false p "Restart=" Restart.fmt r.restart (fun v => hres (Restart.fmt v)),
    filter_optLines_false p "TimeoutStartSec=" toString r.timeout_start_sec
      (fun v => htss (toString v)),
    filter_optLines_false p "Type=" ServiceType.fmt r.service_type
      (fun v => htype (ServiceType.fmt v)),
    filter_optLines_false p "User=" id r.user (fun v => husr v),
    filter_optLines_false p "WorkingDirectory=" id r.working_directory (fun v => hwd v)]
  rfl

/-- C9: resolving the same `(instance, template)` pair twice yields
byte-identical output: `resolve` is embedded as a pure function of its
two arguments (the Rust function performs no I/O and reads no global
state), so a second application is literally the same string. -/
theorem c9_resolve_deterministic (i : InstanceServiceDef) (t : TemplateServiceDef) :
    resolve i t = resolve i t := rfl

/-- C2: each of the eleven service attributes is resolved independently:
with an instance service block present, a field's resolved value is the
instance's when that field is `Some` there and the template's otherwise;
with no instance block, every field is the template's — never a
wholesale replacement of the template's block. -/
theorem c2_service_fields_per_field (iopt : Option Service) (t : Service) :
    ((resolveServiceFields iopt t).environment_file
      = match iopt with
        | some i => if i.environment_file.isSome then i.environment_file else t.environment_file
        | none => t.environment_file)
    ∧ ((resolveServiceFields iopt t).exec_start_pre
      = match iopt with
        | some i => if i.exec_start_pre.isSome then i.exec_start_pre else t.exec_start_pre
        | none => t.exec_start_pre)
    ∧ ((resolveServiceFields iopt t).exec_start
      = match iopt with
        | some i => if i.exec_start.isSome then i.exec_start else t.exec_start
        | none => t.exec_start)
    ∧ ((resolveServiceFields iopt t).exec_stop
      = match iopt with
        | some i => if i.exec_stop.isSome then i.exec_stop else t.exec_stop
        | none => t.exec_stop)
    ∧ ((resolveServiceFields iopt t).group
      = match iopt with
        | some i => if i.group.isSome then i.group else t.group
        | none => t.group)
    ∧ ((resolveServiceFields iopt t).remain_after_exit
      = match iopt with
        | some i => if i.remain_after_exit.isSome then i.remain_after_exit else t.remain_after_exit
        | none => t.remain_after_exit)
    ∧ ((resolveServiceFields iopt t).restart
      = match iopt with
        | some i => if i.restart.isSome then i.restart else t.restart
        | none => t.restart)
    ∧ ((resolveServiceFields iopt t).timeout_start_sec
      = match iopt with
        | some i => if i.timeout_start_sec.isSome then i.timeout_start_sec else t.timeout_start_sec
        | none => t.timeout_start_sec)
    ∧ ((resolveServiceFields iopt t).service_type
      = match iopt with
        | some i => if i.service_type.isSome then i.service_type else t.service_type
        | none => t.service_type)
    ∧ ((resolveServiceFields iopt t).user
      = match iopt with
        | some i => if i.user.isSome then i.user else t.user
        | none => t.user)
    ∧ ((resolveServiceFields iopt t).working_directory
      = match iopt with
        | some i => if i.working_directory.isSome then i.working_directory else t.working_directory
        | none => t.working_directory) := by
  cases iopt <;>
    exact ⟨rfl, rfl, rfl, rfl, rfl, rfl, rfl, rfl, rfl, rfl, rfl⟩

/-- C3: the resolved install block is the instance's install object in
its entirety when supplied and the template's otherwise
(`instance.install.unwrap_or(template.install)`), with no field-by-field
merge: the emitted `WantedBy` line comes from exactly one of the two
objects. -/
theorem c3_install_wholesale (i : InstanceServiceDef) (t : TemplateServiceDef) :
    (i.install.getD t.install
        = match i.install with
          | some x => x
          | none => t.install)
    ∧ resolve i t
      = resolve_service_section i.service t.service (unitPart i t)
        ++ "\n[Install]\n"
        ++ ("WantedBy="
            ++ (match i.install with
                | some x => x.wanted_by
                | none => t.install.wanted_by) ++ "\n") := by
  refine ⟨?_, ?_⟩
  · cases i.install <;> rfl
  · rw [resolve_structure]
    rcases h : i.install with _ | x <;> simp [h]

/-- C4: when an instance supplies a service block that omits
`remain_after_exit`, serde decoding fills the field with the default
`Some(RemainAfterExit::No)`; the filled value is `Some`, so it overrides
the template's `remain_after_exit` (in particular a template `yes`
becomes `no`). -/
theorem c4_remain_default_overrides (raw : RawService) (t : Service)
    (habsent : raw.remain_after_exit = none) :
    (decodeService raw).remain_after_exit = some RemainAfterExit.no
    ∧ (resolveServiceFields (some (decodeService raw)) t).remain_after_exit
        = some RemainAfterExit.no := by
  have h1 : (decodeService raw).remain_after_exit = some RemainAfterExit.no := by
    simp [decodeService, habsent, default_remain_after_exit]
  exact ⟨h1, by simp [resolveServiceFields, pick, h1]⟩

theorem c4_remain_default_overrides_witness :
    (decodeService emptyRawService).remain_after_exit = some RemainAfterExit.no
    ∧ (resolveServiceFields (some (decodeService emptyRawService)) tmpl0.service).remain_after_exit
        = some RemainAfterExit.no :=
  c4_remain_default_overrides emptyRawService tmpl0.service rfl

/-- C8: decoding accepts exactly the enumerated scalar strings for the
`Restart`, `ServiceType` and `RemainAfterExit` enums (anything else is a
decode error, never passed through), and every enum value serializes
verbatim to its enumeration string (round trip). -/
theorem c8_enum_decode_closed :
    (∀ s : String, (Restart.fromString s).isSome
        ↔ s ∈ ["no", "always", "on-success", "on-failure", "on-watchdog", "on-abort"])
    ∧ (∀ s : String, (ServiceType.fromString s).isSome
        ↔ s ∈ ["simple", "oneshot", "forking", "notify", "dbus", "idle"])
    ∧ (∀ s : String, (RemainAfterExit.fromString s).isSome ↔ s ∈ ["no", "yes"])
    ∧ (∀ r : Restart, Restart.fromString (Restart.fmt r) = some r)
    ∧ (∀ t : ServiceType, ServiceType.fromString (ServiceType.fmt t) = some t)
    ∧ (∀ v : RemainAfterExit, RemainAfterExit.fromString (RemainAfterExit.fmt v) = some v) := by
  refine ⟨?_, ?_, ?_, ?_, ?_, ?_⟩
  · intro s
    unfold Restart.fromString
    split_ifs with h1 h2 h3 h4 h5 h6 <;> simp [*]
  · intro s
    unfold ServiceType.fromString
    split_ifs with h1 h2 h3 h4 h5 h6 <;> simp [*]
  · intro s
    unfold RemainAfterExit.fromString
    split_ifs with h1 h2 <;> simp [*]
  · intro r; cases r <;> rfl
  · intro t; cases t <;> rfl
  · intro v; cases v <;> rfl

/-- C10: the resolver is total: with every potentially-panicking
operation on its path (the `unwrap()`s inside `Display for ServiceType`)
modelled as fallible, resolution still always succeeds and returns
exactly the descriptor string — every failure of the program surfaces
during decoding, not in `resolve`. -/
theorem c10_resolve_total (i : InstanceServiceDef) (t : TemplateServiceDef) :
    resolveChecked i t = some (resolve i t) := by
  rw [resolve_structure]
  unfold resolveChecked resolve_service_section_checked resolve_service_section
  rcases hst : (resolveServiceFields i.service t.service).service_type with _ | st <;>
    simp [hst, optLineChecked, optLine, ServiceType.fmtChecked, ServiceType.serializeYaml,
      YamlValue.asStr, ServiceType.fmt, String.append_assoc]

/-- C6 counterexample: at the concrete instance `inst0` and template
`tmpl0`, the descriptor has a blank line between the two header comment
lines and `[Unit]` (first conjunct, the actual output), so it is not the
string the claimed layout prescribes, in which no blank line precedes the
very first bracketed section header (second conjunct). -/
theorem c6_counterexample :
    resolve inst0 tmpl0
      = "; THIS FILE IS GENERATED BY gen-systemd-svc\n; DO NOT EDIT THIS FILE DIRECTLY!\n\n[Unit]\nDescription=Foo service\nRequires=net.target\nAfter=base.service\nAfter=other.service\n\n[Service]\nExecStart=/bin/true\nRemainAfterExit=yes\n\n[Install]\nWantedBy=default.target\n"
    ∧ resolve inst0 tmpl0
      ≠ "; THIS FILE IS GENERATED BY gen-systemd-svc\n; DO NOT EDIT THIS FILE DIRECTLY!\n[Unit]\nDescription=Foo service\nRequires=net.target\nAfter=base.service\nAfter=other.service\n\n[Service]\nExecStart=/bin/true\nRemainAfterExit=yes\n\n[Install]\nWantedBy=default.target\n" := by
  have h : resolve inst0 tmpl0
      = "; THIS FILE IS GENERATED BY gen-systemd-svc\n; DO NOT EDIT THIS FILE DIRECTLY!\n\n[Unit]\nDescription=Foo service\nRequires=net.target\nAfter=base.service\nAfter=other.service\n\n[Service]\nExecStart=/bin/true\nRemainAfterExit=yes\n\n[Install]\nWantedBy=default.target\n" := by
    decide
  refine ⟨h, ?_⟩
  rw [h]
  decide

/-- C6 (amended): the output is the concatenation of the two header
comment lines, the unit section, the service section and the install
section, each section introduced by its bracketed name on its own line,
with a blank line before every bracketed section header — including the
very first one, `[Unit]`. -/
theorem c6_amended_section_layout (i : InstanceServiceDef) (t : TemplateServiceDef) :
    resolve i t
      = "; THIS FILE IS GENERATED BY gen-systemd-svc\n"
        ++ "; DO NOT EDIT THIS FILE DIRECTLY!\n"
        ++ "\n" ++ "[Unit]\n"
        ++ String.join ((unitBodyLines i t).map (fun l => l ++ "\n"))
        ++ "\n" ++ "[Service]\n"
        ++ String.join ((serviceBodyLines (resolveServiceFields i.service t.service)).map (fun l => l ++ "\n"))
        ++ "\n" ++ "[Install]\n"
        ++ ("WantedBy=" ++ (i.install.getD t.install).wanted_by ++ "\n") := by
  rw [resolve_eq_join]
  unfold resolveLines unitLines serviceLines installLines
  simp [List.map_append, join_append, join_cons, join_nil,
    String.append_assoc, String.append_empty, String.empty_append]
  rw [unit_prefix_append, service_header_append, install_header_append]

/-- C7 counterexample: an instance whose name contains the path
separator `/` is neither sanitized nor rejected: `main` derives the
output file name from the name verbatim, so the definition file holding
the instance named `a/b` produces the output file name `a/b.service`. -/
theorem c7_counterexample :
    processDefFile badNameDefFile = [("a/b.service", resolve badNameInst tmpl0)]
    ∧ badNameInst.unit.name = "a/b"
    ∧ '/' ∈ badNameInst.unit.name.data
    ∧ '/' ∈ ("a/b.service" : String).data := by
  refine ⟨rfl, rfl, by decide, by decide⟩

/-- C7 (amended): instance names are used verbatim — for every decoded
definition file, every instance of every group contributes the output
pair `(name ++ ".service", resolve instance template)` with no
sanitization and no rejection, whatever characters the name contains. -/
theorem c7_amended_name_used_verbatim (d : DefinitionFile) (g : TemplatesAndInstances)
    (i : InstanceServiceDef) (hg : g ∈ d.defs) (hi : i ∈ g.instances) :
    (i.unit.name ++ ".service", resolve i g.template) ∈ processDefFile d := by
  unfold processDefFile
  rw [List.mem_flatMap]
  exact ⟨g, hg, List.mem_map.mpr ⟨i, hi, rfl⟩⟩

theorem c7_amended_name_used_verbatim_witness :
    (badNameInst.unit.name ++ ".service", resolve badNameInst tmpl0)
      ∈ processDefFile badNameDefFile :=
  c7_amended_name_used_verbatim badNameDefFile
    { template := tmpl0, instances := [badNameInst] } badNameInst
    (by simp [badNameDefFile]) (by simp)

theorem filter_serviceBodyLines_type (p : String → Bool) (r : Service)
    (hst : r.service_type = none)
    (henv : ∀ s, p ("EnvironmentFile=" ++ s) = false)
    (hesp : ∀ s, p ("ExecStartPre=" ++ s) = false)
    (hes : ∀ s, p ("ExecStart=" ++ s) = false)
    (hestop : ∀ s, p ("ExecStop=" ++ s) = false)
    (hgrp : ∀ s, p ("Group=" ++ s) = false)
    (hrae : ∀ s, p ("RemainAfterExit=" ++ s) = false)
    (hres : ∀ s, p ("Restart=" ++ s) = false)
    (htss : ∀ s, p ("TimeoutStartSec=" ++ s) = false)
    (husr : ∀ s, p ("User=" ++ s) = false)
    (hwd : ∀ s, p ("WorkingDirectory=" ++ s) = false) :
    (serviceBodyLines r).filter p = [] := by
  unfold serviceBodyLines
  rw [hst]
  rw [List.filter_append, List.filter_append, List.filter_append, List.filter_append,
    List.filter_append, List.filter_append, List.filter_append, List.filter_append,
    List.filter_append, List.filter_append]
  rw [filter_optLines_false p "EnvironmentFile=" id r.environment_file (fun v => henv v),
    filter_optLines_false p "ExecStartPre=" id r.exec_start_pre (fun v => hesp v),
    filter_optLines_false p "ExecStart=" id r.exec_start (fun v => hes v),
    filter_optLines_false p "ExecStop=" id r.exec_stop (fun v => hestop v),
    filter_optLines_false p "Group=" id r.group (fun v => hgrp v),
    filter_optLines_false p "RemainAfterExit=" RemainAfterExit.fmt r.remain_after_exit
      (fun v => hrae (RemainAfterExit.fmt v)),
    filter_optLines_false p "Restart=" Restart.fmt r.restart (fun v => hres (Restart.fmt v)),
    filter_optLines_false p "TimeoutStartSec=" toString r.timeout_start_sec
      (fun v => htss (toString v)),
    filter_optLines_false p "User=" id r.user (fun v => husr v),
    filter_optLines_false p "WorkingDirectory=" id r.working_directory (fun v => hwd v)]
  rfl

theorem mem_serviceBodyLines_remain (r : Service) (v : RemainAfterExit)
    (h : r.remain_after_exit = some v) :
    ("RemainAfterExit=" ++ RemainAfterExit.fmt v) ∈ serviceBodyLines r := by
  unfold serviceBodyLines
  rw [h]
  simp [optLines, List.mem_append]

theorem mem_resolveLines_remain (i : InstanceServiceDef) (t : TemplateServiceDef)
    (v : RemainAfterExit)
    (h : (resolveServiceFields i.service t.service).remain_after_exit = some v) :
    ("RemainAfterExit=" ++ RemainAfterExit.fmt v) ∈ resolveLines i t := by
  unfold resolveLines serviceLines
  exact List.mem_append.mpr (Or.inl (List.mem_append.mpr (Or.inr (List.mem_append.mpr
    (Or.inr (mem_serviceBodyLines_remain _ v h))))))

/-- C1: for each of the three unit dependency fields, the sequence of
lines `resolve` emits under that key is exactly the template's list
followed by the instance's list when the inherit flag is true, and the
instance's list alone when it is false; an absent instance list behaves
as the empty list, entry order is preserved and duplicates are kept. -/
theorem c1_dependency_lists_merge (i : InstanceServiceDef) (t : TemplateServiceDef) :
    ((resolveLines i t).filter (fun l => lineHasKey "Requires=" l)
      = (if i.unit.inherit_requires then t.unit.requires ++ i.unit.requires.getD []
         else i.unit.requires.getD []).map (fun e => "Requires=" ++ e))
    ∧ ((resolveLines i t).filter (fun l => lineHasKey "After=" l)
      = (if i.unit.inherit_after then t.unit.after ++ i.unit.after.getD []
         else i.unit.after.getD []).map (fun e => "After=" ++ e))
    ∧ ((resolveLines i t).filter (fun l => lineHasKey "Wants=" l)
      = (if i.unit.inherit_wants then t.unit.wants ++ i.unit.wants.getD []
         else i.unit.wants.getD []).map (fun e => "Wants=" ++ e)) := by
  refine ⟨?_, ?_, ?_⟩
  · rw [filter_resolveLines i t (fun l => lineHasKey "Requires=" l)
        (by decide) (by decide) (by decide) (by decide) (by decide) (by decide)
        (fun s => lineHasKey_false_append2 "Requires=" "Description=" s (by decide) (by decide))
        (fun s => lineHasKey_false_append2 "Requires=" "RequiresMountsFor=" s (by decide) (by decide))
        (fun s => lineHasKey_false_append2 "Requires=" "WantedBy=" s (by decide) (by decide))]
    rw [filter_depLines_self (fun l => lineHasKey "Requires=" l) "Requires=" _
        (fun e => lineHasKey_key_append "Requires=" e)]
    rw [filter_depLines_none (fun l => lineHasKey "Requires=" l) "After=" _
        (fun e => lineHasKey_false_append2 "Requires=" "After=" e (by decide) (by decide))]
    rw [filter_depLines_none (fun l => lineHasKey "Requires=" l) "Wants=" _
        (fun e => lineHasKey_false_append2 "Requires=" "Wants=" e (by decide) (by decide))]
    rw [filter_serviceBodyLines_false (fun l => lineHasKey "Requires=" l) _
        (fun s => lineHasKey_false_append2 "Requires=" "EnvironmentFile=" s (by decide) (by decide))
        (fun s => lineHasKey_false_append2 "Requires=" "ExecStartPre=" s (by decide) (by decide))
        (fun s => lineHasKey_false_append2 "Requires=" "ExecStart=" s (by decide) (by decide))
        (fun s => lineHasKey_false_append2 "Requires=" "ExecStop=" s (by decide) (by decide))
        (fun s => lineHasKey_false_append2 "Requires=" "Group=" s (by decide) (by decide))
        (fun s => lineHasKey_false_append2 "Requires=" "RemainAfterExit=" s (by decide) (by decide))
        (fun s => lineHasKey_false_append2 "Requires=" "Restart=" s (by decide) (by decide))
        (fun s => lineHasKey_false_append2 "Requires=" "TimeoutStartSec=" s (by decide) (by decide))
        (fun s => lineHasKey_false_append2 "Requires=" "Type=" s (by decide) (by decide))
        (fun s => lineHasKey_false_append2 "Requires=" "User=" s (by decide) (by decide))
        (fun s => lineHasKey_false_append2 "Requires=" "WorkingDirectory=" s (by decide) (by decide))]
    cases hb : i.unit.inherit_requires <;> simp [mergedDeps, depLines, hb]
  · rw [filter_resolveLines i t (fun l => lineHasKey "After=" l)
        (by decide) (by decide) (by decide) (by decide) (by decide) (by decide)
        (fun s => lineHasKey_false_append2 "After=" "Description=" s (by decide) (by decide))
        (fun s => lineHasKey_false_append2 "After=" "RequiresMountsFor=" s (by decide) (by decide))
        (fun s => lineHasKey_false_append2 "After=" "WantedBy=" s (by decide) (by decide))]
    rw [filter_depLines_none (fun l => lineHasKey "After=" l) "Requires=" _
        (fun e => lineHasKey_false_append2 "After=" "Requires=" e (by decide) (by decide))]
    rw [filter_depLines_self (fun l => lineHasKey "After=" l) "After=" _
        (fun e => lineHasKey_key_append "After=" e)]
    rw [filter_depLines_none (fun l => lineHasKey "After=" l) "Wants=" _
        (fun e => lineHasKey_false_append2 "After=" "Wants=" e (by decide) (by decide))]
    rw [filter_serviceBodyLines_false (fun l => lineHasKey "After=" l) _
        (fun s => lineHasKey_false_append2 "After=" "EnvironmentFile=" s (by decide) (by decide))
        (fun s => lineHasKey_false_append2 "After=" "ExecStartPre=" s (by decide) (by decide))
        (fun s => lineHasKey_false_append2 "After=" "ExecStart=" s (by decide) (by decide))
        (fun s => lineHasKey_false_append2 "After=" "ExecStop=" s (by decide) (by decide))
        (fun s => lineHasKey_false_append2 "After=" "Group=" s (by decide) (by decide))
        (fun s => lineHasKey_false_append2 "After=" "RemainAfterExit=" s (by decide) (by decide))
        (fun s => lineHasKey_false_append2 "After=" "Restart=" s (by decide) (by decide))
        (fun s => lineHasKey_false_append2 "After=" "TimeoutStartSec=" s (by decide) (by decide))
        (fun s => lineHasKey_false_append2 "After=" "Type=" s (by decide) (by decide))
        (fun s => lineHasKey_false_append2 "After=" "User=" s (by decide) (by decide))
        (fun s => lineHasKey_false_append2 "After=" "WorkingDirectory=" s (by decide) (by decide))]
    cases hb : i.unit.inherit_after <;> simp [mergedDeps, depLines, hb]
  · rw [filter_resolveLines i t (fun l => lineHasKey "Wants=" l)
        (by decide) (by decide) (by decide) (by decide) (by decide) (by decide)
        (fun s => lineHasKey_false_append2 "Wants=" "Description=" s (by decide) (by decide))
        (fun s => lineHasKey_false_append2 "Wants=" "RequiresMountsFor=" s (by decide) (by decide))
        (fun s => lineHasKey_false_append2 "Wants=" "WantedBy=" s (by decide) (by decide))]
    rw [filter_depLines_none (fun l => lineHasKey "Wants=" l) "Requires=" _
        (fun e => lineHasKey_false_append2 "Wants=" "Requires=" e (by decide) (by decide))]
    rw [filter_depLines_none (fun l => lineHasKey "Wants=" l) "After=" _
        (fun e => lineHasKey_false_append2 "Wants=" "After=" e (by decide) (by decide))]
    rw [filter_depLines_self (fun l => lineHasKey "Wants=" l) "Wants=" _
        (fun e => lineHasKey_key_append "Wants=" e)]
    rw [filter_serviceBodyLines_false (fun l => lineHasKey "Wants=" l) _
        (fun s => lineHasKey_false_append2 "Wants=" "EnvironmentFile=" s (by decide) (by decide))
        (fun s => lineHasKey_false_append2 "Wants=" "ExecStartPre=" s (by decide) (by decide))
        (fun s => lineHasKey_false_append2 "Wants=" "ExecStart=" s (by decide) (by decide))
        (fun s => lineHasKey_false_append2 "Wants=" "ExecStop=" s (by decide) (by decide))
        (fun s => lineHasKey_false_append2 "Wants=" "Group=" s (by decide) (by decide))
        (fun s => lineHasKey_false_append2 "Wants=" "RemainAfterExit=" s (by decide) (by decide))
        (fun s => lineHasKey_false_append2 "Wants=" "Restart=" s (by decide) (by decide))
        (fun s => lineHasKey_false_append2 "Wants=" "TimeoutStartSec=" s (by decide) (by decide))
        (fun s => lineHasKey_false_append2 "Wants=" "Type=" s (by decide) (by decide))
        (fun s => lineHasKey_false_append2 "Wants=" "User=" s (by decide) (by decide))
        (fun s => lineHasKey_false_append2 "Wants=" "WorkingDirectory=" s (by decide) (by decide))]
    cases hb : i.unit.inherit_wants <;> simp [mergedDeps, depLines, hb]

/-- C5: over decoded inputs, the resolved output always contains a
`RemainAfterExit` line; its value is `no` when neither the template's
service block nor the instance's override specified the field; and when
`service_type` is unspecified in both, the output contains no `Type`
line at all. -/
theorem c5_defaults_emission (rt : RawService) (ri : Option RawService)
    (i : InstanceServiceDef) (t : TemplateServiceDef)
    (ht : t.service = decodeService rt)
    (hi : i.service = ri.map decodeService) :
    (∃ v, ("RemainAfterExit=" ++ RemainAfterExit.fmt v) ∈ resolveLines i t)
    ∧ (rt.remain_after_exit = none →
        (∀ x, ri = some x → x.remain_after_exit = none) →
        ("RemainAfterExit=" ++ RemainAfterExit.fmt RemainAfterExit.no) ∈ resolveLines i t)
    ∧ (rt.service_type = none →
        (∀ x, ri = some x → x.service_type = none) →
        (resolveLines i t).filter (fun l => lineHasKey "Type=" l) = []) := by
  refine ⟨?_, ?_, ?_⟩
  · have hremAll : ∃ v, (resolveServiceFields i.service t.service).remain_after_exit = some v := by
      rcases hr : ri with _ | rx
      · rw [hr] at hi
        simp only [Option.map_none'] at hi
        rw [hi, ht]
        rcases h : rt.remain_after_exit with _ | w
        · exact ⟨RemainAfterExit.no,
            by simp [resolveServiceFields, decodeService, h, default_remain_after_exit]⟩
        · exact ⟨w, by simp [resolveServiceFields, decodeService, h]⟩
      · rw [hr] at hi
        simp only [Option.map_some'] at hi
        rw [hi, ht]
        rcases h : rx.remain_after_exit with _ | w
        · exact ⟨RemainAfterExit.no,
            by simp [resolveServiceFields, decodeService, pick, h, default_remain_after_exit]⟩
        · exact ⟨w, by simp [resolveServiceFields, decodeService, pick, h]⟩
    obtain ⟨v, hv⟩ := hremAll
    exact ⟨v, mem_resolveLines_remain i t v hv⟩
  · intro hrt hri
    have hv : (resolveServiceFields i.service t.service).remain_after_exit
        = some RemainAfterExit.no := by
      rcases hr : ri with _ | rx
      · rw [hr] at hi
        simp only [Option.map_none'] at hi
        rw [hi, ht]
        simp [resolveServiceFields, decodeService, hrt, default_remain_after_exit]
      · rw [hr] at hi
        simp only [Option.map_some'] at hi
        rw [hi, ht]
        simp [resolveServiceFields, decodeService, pick, hri rx hr, default_remain_after_exit]
    exact mem_resolveLines_remain i t RemainAfterExit.no hv
  · intro hrt hri
    have hst : (resolveServiceFields i.service t.service).service_type = none := by
      rcases hr : ri with _ | rx
      · rw [hr] at hi
        simp only [Option.map_none'] at hi
        rw [hi, ht]
        simp [resolveServiceFields, decodeService, hrt, default_service_type]
      · rw [hr] at hi
        simp only [Option.map_some'] at hi
        rw [hi, ht]
        simp [resolveServiceFields, decodeService, pick, hrt, hri rx hr, default_service_type]
    rw [filter_resolveLines i t (fun l => lineHasKey "Type=" l)
        (by decide) (by decide) (by decide) (by decide) (by decide) (by decide)
        (fun s => lineHasKey_false_append2 "Type=" "Description=" s (by decide) (by decide))
        (fun s => lineHasKey_false_append2 "Type=" "RequiresMountsFor=" s (by decide) (by decide))
        (fun s => lineHasKey_false_append2 "Type=" "WantedBy=" s (by decide) (by decide))]
    rw [filter_depLines_none (fun l => lineHasKey "Type=" l) "Requires=" _
        (fun e => lineHasKey_false_append2 "Type=" "Requires=" e (by decide) (by decide))]
    rw [filter_depLines_none (fun l => lineHasKey "Type=" l) "After=" _
        (fun e => lineHasKey_false_append2 "Type=" "After=" e (by decide) (by decide))]
    rw [filter_depLines_none (fun l => lineHasKey "Type=" l) "Wants=" _
        (fun e => lineHasKey_false_append2 "Type=" "Wants=" e (by decide) (by decide))]
    rw [filter_serviceBodyLines_type (fun l => lineHasKey "Type=" l) _ hst
        (fun s => lineHasKey_false_append2 "Type=" "EnvironmentFile=" s (by decide) (by decide))
        (fun s => lineHasKey_false_append2 "Type=" "ExecStartPre=" s (by decide) (by decide))
        (fun s => lineHasKey_false_append2 "Type=" "ExecStart=" s (by decide) (by decide))
        (fun s => lineHasKey_false_append2 "Type=" "ExecStop=" s (by decide) (by decide))
        (fun s => lineHasKey_false_append2 "Type=" "Group=" s (by decide) (by decide))
        (fun s => lineHasKey_false_append2 "Type=" "RemainAfterExit=" s (by decide) (by decide))
        (fun s => lineHasKey_false_append2 "Type=" "Restart=" s (by decide) (by decide))
        (fun s => lineHasKey_false_append2 "Type=" "TimeoutStartSec=" s (by decide) (by decide))
        (fun s => lineHasKey_false_append2 "Type=" "User=" s (by decide) (by decide))
        (fun s => lineHasKey_false_append2 "Type=" "WorkingDirectory=" s (by decide) (by decide))]
    rfl

theorem c5_defaults_emission_witness :
    ("RemainAfterExit=" ++ RemainAfterExit.fmt RemainAfterExit.no) ∈ resolveLines inst0 tmplDecoded0
    ∧ (resolveLines inst0 tmplDecoded0).filter (fun l => lineHasKey "Type=" l) = [] :=
  ⟨(c5_defaults_emission emptyRawService none inst0 tmplDecoded0 rfl rfl).2.1 rfl
      (fun x hx => Option.noConfusion hx),
   (c5_defaults_emission emptyRawService none inst0 tmplDecoded0 rfl rfl).2.2 rfl
      (fun x hx => Option.noConfusion hx)⟩

end GenSvc
